import Mathlib

set_option maxRecDepth 20000

/-! Verification development for `dutch_word_analyzer.py`.

The per-word pipeline of the analyzer is embedded shallowly: Python strings
become Lean `String` viewed through small helpers that mimic Python string
semantics (`strip`, `lower`, `endswith`, slicing), Python dicts with a fixed
slot set become a structure whose fields are `Option (Option String)`
(`none` = key absent from the dict, `some none` = key present with value
`None`, `some (some s)` = key present with string `s`), and code that can
raise an uncaught exception returns `Except Unit`.  The external lookup
collaborator (network fetches and response parsing, out of core scope) is
abstracted by `FetchOutcome`, an arbitrary description of what the fetch
layer would deliver for one word. -/

/-- Python `str.strip()` (restricted to whitespace stripping, which is all
the analyzer uses). -/
def pyStrip (s : String) : String :=
  ⟨((s.data.dropWhile Char.isWhitespace).reverse.dropWhile Char.isWhitespace).reverse⟩

/-- Python `str.lower()` (ASCII case mapping; the analyzer only compares
ASCII word-type strings and Dutch letters). -/
def pyLower (s : String) : String := ⟨s.data.map Char.toLower⟩

/-- Python `str.endswith(suffix)`. -/
def pyEndsWith (s suf : String) : Bool := suf.data.isSuffixOf s.data

/-- Python slice `s[:-2]`. -/
def pyDropLast2 (s : String) : String := ⟨s.data.take (s.data.length - 2)⟩

/-- Python truthiness of a string: `""` is falsy. -/
def truthyS (s : String) : Bool := s != ""

/-- Python truthiness of an optional string: `None` and `""` are falsy. -/
def truthyOS : Option String → Bool
  | none => false
  | some s => truthyS s

/-- Python `dict.get(key)` on a slot of the fixed-shape forms dict:
an absent key and a key present with value `None` both give `None`. -/
def dget (x : Option (Option String)) : Option String := x.getD none

/-- Truthiness of `dict.get(key)` for a forms slot. -/
def dtruthy (x : Option (Option String)) : Bool := truthyOS (dget x)

/-- The `forms` dict of a word record.  Each field models one of the six
named slots; `none` means the key is absent from the dict. -/
structure Forms where
  past_tense : Option (Option String)
  past_participle : Option (Option String)
  present_tense : Option (Option String)
  plural : Option (Option String)
  comparative : Option (Option String)
  superlative : Option (Option String)
deriving DecidableEq

/-- Python `any(forms.values())`: some present slot has a truthy value. -/
def formsAny (f : Forms) : Bool :=
  dtruthy f.past_tense || dtruthy f.past_participle || dtruthy f.present_tense ||
  dtruthy f.plural || dtruthy f.comparative || dtruthy f.superlative

/-- The freshly initialized forms dict of `get_word_info`: all six keys
present, each with value `None`. -/
def frameForms : Forms :=
  ⟨some none, some none, some none, some none, some none, some none⟩

/-- The empty forms dict `{}` that `_get_wiktionary_info` starts from:
no key present. -/
def emptyForms : Forms := ⟨none, none, none, none, none, none⟩

/-- All six named slots are present in the dict (with a string or an
explicit `None`). -/
def allSixPresent (f : Forms) : Bool :=
  f.past_tense.isSome && f.past_participle.isSome && f.present_tense.isSome &&
  f.plural.isSome && f.comparative.isSome && f.superlative.isSome

/-- The class attribute `IRREGULAR_VERBS`: infinitive, past tense, past
participle. -/
def IRREGULAR_VERBS : List (String × String × String) :=
  [("lezen", "las", "gelezen"),
   ("schrijven", "schreef", "geschreven"),
   ("begrijpen", "begreep", "begrepen"),
   ("komen", "kwam", "gekomen"),
   ("gaan", "ging", "gegaan"),
   ("zien", "zag", "gezien"),
   ("doen", "deed", "gedaan"),
   ("hebben", "had", "gehad"),
   ("zijn", "was", "geweest"),
   ("worden", "werd", "geworden"),
   ("nemen", "nam", "genomen"),
   ("geven", "gaf", "gegeven"),
   ("blijven", "bleef", "gebleven"),
   ("krijgen", "kreeg", "gekregen"),
   ("zeggen", "zei", "gezegd"),
   ("weten", "wist", "geweten"),
   ("eten", "at", "gegeten"),
   ("drinken", "dronk", "gedronken"),
   ("lopen", "liep", "gelopen"),
   ("staan", "stond", "gestaan"),
   ("zitten", "zat", "gezeten"),
   ("liggen", "lag", "gelegen"),
   ("vinden", "vond", "gevonden"),
   ("denken", "dacht", "gedacht"),
   ("brengen", "bracht", "gebracht"),
   ("kopen", "kocht", "gekocht"),
   ("verkopen", "verkocht", "verkocht"),
   ("helpen", "hielp", "geholpen"),
   ("spreken", "sprak", "gesproken")]

/-- `word in IRREGULAR_VERBS` / `IRREGULAR_VERBS[word]`: dictionary lookup
in the irregular exception table. -/
def lookupIrregular (w : String) : Option (String × String) :=
  match IRREGULAR_VERBS.find? (fun e => e.1 == w) with
  | some e => some (e.2.1, e.2.2)
  | none => none

/-- `word in self.IRREGULAR_VERBS`. -/
def isIrregular (w : String) : Bool := (lookupIrregular w).isSome

/-- The voiceless-consonant list of `_get_verb_forms`. -/
def voicelessList : List Char := ['p', 't', 'k', 'f', 's', 'x', 'c']

/-- `DutchWordAnalyzer._get_verb_forms`: returns the
(past_tense, past_participle) pair the dict would hold, or `none` for the
empty dict. -/
def get_verb_forms (word : String) : Option (String × String) :=
  if pyEndsWith word "en" then
    let stem := pyDropLast2 word
    if 0 < stem.data.length then
      let final_cons := (stem.data.getLastD ' ').toLower
      if final_cons ∈ voicelessList then some (stem ++ "te", "ge" ++ stem ++ "t")
      else some (stem ++ "de", "ge" ++ stem ++ "d")
    else none
  else none

/-- `DutchWordAnalyzer._get_noun_forms`: the plural slot value (the dict is
never empty). -/
def get_noun_forms (word : String) : String :=
  if pyEndsWith word "el" || pyEndsWith word "er" || pyEndsWith word "en" then word ++ "s"
  else if pyEndsWith word "heid" then word ++ "en"
  else if pyEndsWith word "ing" then word ++ "en"
  else word ++ "en"

/-- `DutchWordAnalyzer._get_adjective_forms`: the (comparative, superlative)
pair, or `none` for the empty dict.  The source computes the same
superlative in both of its branches; the branch on a trailing `r` is kept. -/
def get_adjective_forms (word : String) : Option (String × String) :=
  if 2 < word.data.length then
    some (word ++ "er", if pyEndsWith word "r" then word ++ "st" else word ++ "st")
  else none

/-- Abstract outcome of the external lookup collaborator for one word
(the network fetches and response parsing of `_get_wiktionary_info`, which
the spec places outside the core).  `defsRaises` models an exception
escaping the definition request or its JSON decoding, which the single
outer `try` of `_get_wiktionary_info` turns into a `None` return; the
inflection and HTML sections have their own absorbing `try` blocks, so an
exception there cannot escape.  The `infl*` fields are the net slot
assignments of the inflection-parsing loop (the endpoint never writes
`present_tense`); the `html*` fields are the validated candidates the
HTML conjugation-table scan would assign. -/
structure FetchOutcome where
  defsRaises : Bool
  meanings : List String
  word_type : Option String
  inflPast : Option String
  inflPart : Option String
  inflPlural : Option String
  inflComp : Option String
  inflSup : Option String
  htmlPast : Option String
  htmlPart : Option String

/-- The partial return dict of `_get_wiktionary_info` /
`_get_woordenboek_info`. -/
structure WikiData where
  meanings : List String
  forms : Forms
  word_type : Option String
deriving DecidableEq

/-- The forms dict after the inflection-endpoint section: keys only for the
slots that section assigned. -/
def inflForms (f : FetchOutcome) : Forms :=
  { past_tense := f.inflPast.map some
    past_participle := f.inflPart.map some
    present_tense := none
    plural := f.inflPlural.map some
    comparative := f.inflComp.map some
    superlative := f.inflSup.map some }

/-- The HTML scan for `verleden tijd`: assigns only when the slot is still
falsy. -/
def applyHtmlPast (f : FetchOutcome) (fo : Forms) : Forms :=
  if dtruthy fo.past_tense then fo
  else
    match f.htmlPast with
    | some s => { fo with past_tense := some (some s) }
    | none => fo

/-- The HTML scan for `voltooid deelwoord`: assigns only when the slot is
still falsy. -/
def applyHtmlPart (f : FetchOutcome) (fo : Forms) : Forms :=
  if dtruthy fo.past_participle then fo
  else
    match f.htmlPart with
    | some s => { fo with past_participle := some (some s) }
    | none => fo

/-- `DutchWordAnalyzer._get_wiktionary_info`.  Order as in the source:
definition parse, inflection parse, irregular-verb override, HTML scan,
then the emptiness test `result['meanings'] or any(result['forms'].values())`.
A raising fetch returns `none` before the irregular-verb override runs. -/
def getWiktionaryInfo (word : String) (f : FetchOutcome) : Option WikiData :=
  if f.defsRaises then none
  else
    let fo1 := inflForms f
    let irr := lookupIrregular word
    let wt1 :=
      match irr with
      | some _ => if truthyOS f.word_type then f.word_type else some "verb"
      | none => f.word_type
    let fo2 :=
      match irr with
      | some (pt, pp) =>
          { fo1 with past_tense := some (some pt), past_participle := some (some pp) }
      | none => fo1
    let fo3 := applyHtmlPart f (applyHtmlPast f fo2)
    if !f.meanings.isEmpty || formsAny fo3 then some ⟨f.meanings, fo3, wt1⟩ else none

/-- `DutchWordAnalyzer._get_woordenboek_info`: the source is a placeholder
that always returns `None`. -/
def get_woordenboek_info (_word : String) : Option WikiData := none

/-- One slot of the woordenboek merge loop: iterates the keys present in
the record and fills a falsy slot from a truthy collaborator slot. -/
def mergeSlotWB (cur wb : Option (Option String)) : Option (Option String) :=
  match cur with
  | none => none
  | some v => if truthyOS v then some v else if dtruthy wb then some (dget wb) else some v

/-- The final word record of one word: the dict
`{word, meanings, forms, word_type}`. -/
structure WordInfo where
  word : String
  meanings : List String
  forms : Forms
  word_type : Option String
deriving DecidableEq

/-- The woordenboek merge block of `get_word_info` (dead in practice since
`_get_woordenboek_info` returns `None`). -/
def mergeWoordenboek (r : WordInfo) (wd : WikiData) : WordInfo :=
  { r with
    meanings := if r.meanings.isEmpty then wd.meanings else r.meanings
    word_type := if truthyOS r.word_type then r.word_type else wd.word_type
    forms :=
      { past_tense := mergeSlotWB r.forms.past_tense wd.forms.past_tense
        past_participle := mergeSlotWB r.forms.past_participle wd.forms.past_participle
        present_tense := mergeSlotWB r.forms.present_tense wd.forms.present_tense
        plural := mergeSlotWB r.forms.plural wd.forms.plural
        comparative := mergeSlotWB r.forms.comparative wd.forms.comparative
        superlative := mergeSlotWB r.forms.superlative wd.forms.superlative } }

/-- `DutchWordAnalyzer.get_word_info`: normalizes the word, builds the
fully keyed frame, then `result.update(wiktionary_data)` replaces
`meanings`, `forms` and `word_type` wholesale when the collaborator
returned a dict.  Returns `none` for the empty-word early return `{}`. -/
def get_word_info (rawWord : String) (f : FetchOutcome) : Option WordInfo :=
  let word := pyLower (pyStrip rawWord)
  if word = "" then none
  else
    let base : WordInfo := ⟨word, [], frameForms, none⟩
    let r1 :=
      match getWiktionaryInfo word f with
      | some wd => { base with meanings := wd.meanings, forms := wd.forms, word_type := wd.word_type }
      | none => base
    let r2 :=
      match get_woordenboek_info word with
      | some wd => mergeWoordenboek r1 wd
      | none => r1
    some r2

/-- One slot assignment of a fill loop: `if not forms.get(key):
forms[key] = value`. -/
def fillIfFalsy (cur : Option (Option String)) (v : String) : Option (Option String) :=
  if dtruthy cur then cur else some (some v)

/-- Verb-inference block of the batch loop (lines 335 to 348 of the
source), threading the local lowered `word_type` alongside the record.
Uses the raw (trimmed, not lowered) word.  The two assignments of the
source (`word_type = 'verb'` when unset, then the fill loop when the local
type equals verb) are rendered by the three explicit cases of the local
type: unset, verb, other. -/
def verbStage (word : String) (wt0 : String) (wi : WordInfo) : String × WordInfo :=
  if isIrregular word then
    if wt0 = "" then ("verb", { wi with word_type := some "verb" }) else (wt0, wi)
  else
    match get_verb_forms word with
    | none => (wt0, wi)
    | some (pt, pp) =>
      if truthyS pt || truthyS pp then
        if wt0 = "" then
          ("verb", { wi with
                     word_type := some "verb"
                     forms := { wi.forms with
                       past_tense := fillIfFalsy wi.forms.past_tense pt
                       past_participle := fillIfFalsy wi.forms.past_participle pp } })
        else if wt0 = "verb" then
          (wt0, { wi with forms := { wi.forms with
                       past_tense := fillIfFalsy wi.forms.past_tense pt
                       past_participle := fillIfFalsy wi.forms.past_participle pp } })
        else (wt0, wi)
      else (wt0, wi)

/-- Noun-inference block of the batch loop (lines 350 to 357): the noun
forms dict is never empty, so `if noun_forms and not word_type` reduces to
the type test; the type-set and plural-fill assignments are rendered by
the explicit cases of the local type. -/
def nounStage (word : String) (s : String × WordInfo) : String × WordInfo :=
  if s.1 = "" then
    if dtruthy s.2.forms.plural then ("noun", { s.2 with word_type := some "noun" })
    else ("noun", { s.2 with
                    word_type := some "noun"
                    forms := { s.2.forms with plural := some (some (get_noun_forms word)) } })
  else if s.1 = "noun" then
    if dtruthy s.2.forms.plural then s
    else (s.1, { s.2 with forms := { s.2.forms with plural := some (some (get_noun_forms word)) } })
  else s

/-- Adjective-inference block of the batch loop (lines 359 to 367): with an
empty adjective dict the type test fails and the fill loop iterates
nothing; otherwise the type-set and fill assignments are rendered by the
explicit cases of the local type. -/
def adjStage (word : String) (s : String × WordInfo) : String × WordInfo :=
  match get_adjective_forms word with
  | none => s
  | some (cmp, sup) =>
    if s.1 = "" then
      ("adjective", { s.2 with
                      word_type := some "adjective"
                      forms := { s.2.forms with
                        comparative := fillIfFalsy s.2.forms.comparative cmp
                        superlative := fillIfFalsy s.2.forms.superlative sup } })
    else if s.1 = "adjective" then
      (s.1, { s.2 with forms := { s.2.forms with
                        comparative := fillIfFalsy s.2.forms.comparative cmp
                        superlative := fillIfFalsy s.2.forms.superlative sup } })
    else s

/-- The gated inference block: verb, then noun, then adjective. -/
def inferenceGate (word : String) (wt0 : String) (wi : WordInfo) : WordInfo :=
  (adjStage word (nounStage word (verbStage word wt0 wi))).2

/-- The terminal category-pruning block (lines 369 to 388): rereads and
lowers the stored word type, then nulls the category-inappropriate slots. -/
def pruneForms (wt : String) (fo : Forms) : Forms :=
  if wt = "verb" then
    { fo with comparative := some none, superlative := some none, plural := some none }
  else if wt = "adjective" then
    { fo with past_tense := some none, past_participle := some none,
              present_tense := some none, plural := some none }
  else if wt = "noun" then
    { fo with past_tense := some none, past_participle := some none,
              present_tense := some none, comparative := some none, superlative := some none }
  else fo

/-- The pruning step as executed: `word_info.get('word_type', '').lower()`
raises `AttributeError` when the key is present with value `None`
(`dict.get` only falls back to the default for an absent key). -/
def pruneStage (wi : WordInfo) : Except Unit WordInfo :=
  match wi.word_type with
  | none => Except.error ()
  | some s => Except.ok { wi with forms := pruneForms (pyLower s) wi.forms }

/-- One iteration of the batch loop of `process_words_from_file` for an
already trimmed word: `get_word_info`, the crashing
`word_info.get('word_type', '').lower()` read (line 328), the gated
inference block, then pruning.  The `none` return of `get_word_info`
(empty word, unreachable for the filtered batch) is mapped to an error,
matching the eventual `KeyError` such a `{}` record would cause. -/
def processWord (word : String) (f : FetchOutcome) : Except Unit WordInfo :=
  match get_word_info word f with
  | none => Except.error ()
  | some wi =>
    match wi.word_type with
    | none => Except.error ()
    | some s0 =>
      let wt0 := pyLower s0
      let wi1 := if wt0 = "" || !(formsAny wi.forms) then inferenceGate word wt0 wi else wi
      pruneStage wi1

/-- The batch loop over the filtered word list; an uncaught per-word
exception aborts the whole batch with no result list. -/
def processList (fetch : String → FetchOutcome) : List String → Except Unit (List WordInfo)
  | [] => Except.ok []
  | w :: ws =>
    match processWord w (fetch w) with
    | Except.error e => Except.error e
    | Except.ok r =>
      match processList fetch ws with
      | Except.error e => Except.error e
      | Except.ok rs => Except.ok (r :: rs)

/-- `DutchWordAnalyzer.process_words_from_file` on an already read line
list: `[line.strip() for line in f if line.strip()]` then the batch loop.
The collaborator is an arbitrary per-word outcome. -/
def process_words_from_file (lines : List String) (fetch : String → FetchOutcome) :
    Except Unit (List WordInfo) :=
  processList fetch ((lines.map pyStrip).filter (fun w => w ≠ ""))

/-- Collaborator outcome: every fetch succeeds but yields nothing. -/
def fetchEmpty : FetchOutcome :=
  ⟨false, [], none, none, none, none, none, none, none, none⟩

/-- Collaborator outcome: the definition request raises (collaborator
unavailable). -/
def fetchDown : FetchOutcome := { fetchEmpty with defsRaises := true }

/-- Collaborator outcome: one meaning and the given word type, no forms. -/
def fetchTyped (wt : Option String) : FetchOutcome :=
  { fetchEmpty with meanings := ["x"], word_type := wt }

deriving instance DecidableEq for Except

/-- Final record of `lezen` when the fetch succeeds but yields nothing. -/
def recLezen : WordInfo :=
  ⟨"lezen", [],
   ⟨some (some "las"), some (some "gelezen"), none, some none, some none, some none⟩,
   some "verb"⟩

/-- Final record of `boek` when the collaborator reports one meaning and
word type noun. -/
def recBoek : WordInfo :=
  ⟨"boek", ["x"],
   ⟨some none, some none, some none, some (some "boeken"), some none, some none⟩,
   some "noun"⟩

/-- Final record of `mooi` when the collaborator reports one meaning and
word type adjective. -/
def recMooi : WordInfo :=
  ⟨"mooi", ["x"],
   ⟨some none, some none, some none, some none, some (some "mooier"), some (some "mooist")⟩,
   some "adjective"⟩

/-- Final record of `werken` when the collaborator reports one meaning and
word type verb. -/
def recWerken : WordInfo :=
  ⟨"werken", ["x"],
   ⟨some (some "werkte"), some (some "gewerkt"), none, some none, some none, some none⟩,
   some "verb"⟩

/-- The verb rule exactly as claim C6 words it (voiceless test on the
final stem character as written, without lower-casing), for comparison
with `get_verb_forms`. -/
def specVerbRule (word : String) : Option (String × String) :=
  if pyEndsWith word "en" ∧ pyDropLast2 word ≠ "" then
    let stem := pyDropLast2 word
    if stem.data.getLastD ' ' ∈ voicelessList then some (stem ++ "te", "ge" ++ stem ++ "t")
    else some (stem ++ "de", "ge" ++ stem ++ "d")
  else none

/-- The verb rule of claim C6 amended: the voiceless test reads the final
stem character after lower-casing, as the source does. -/
def specVerbRuleLowered (word : String) : Option (String × String) :=
  if pyEndsWith word "en" ∧ pyDropLast2 word ≠ "" then
    let stem := pyDropLast2 word
    if (stem.data.getLastD ' ').toLower ∈ voicelessList then some (stem ++ "te", "ge" ++ stem ++ "t")
    else some (stem ++ "de", "ge" ++ stem ++ "d")
  else none

lemma pruneForms_verb_eq (fo : Forms) :
    pruneForms "verb" fo =
      { fo with comparative := some none, superlative := some none, plural := some none } := rfl

lemma pruneForms_adjective_eq (fo : Forms) :
    pruneForms "adjective" fo =
      { fo with past_tense := some none, past_participle := some none,
                present_tense := some none, plural := some none } := rfl

lemma pruneForms_noun_eq (fo : Forms) :
    pruneForms "noun" fo =
      { fo with past_tense := some none, past_participle := some none,
                present_tense := some none, comparative := some none, superlative := some none } := rfl

lemma pruneForms_idem (wt : String) (fo : Forms) :
    pruneForms wt (pruneForms wt fo) = pruneForms wt fo := by
  by_cases h1 : wt = "verb"
  · subst h1; rfl
  · by_cases h2 : wt = "adjective"
    · subst h2; rfl
    · by_cases h3 : wt = "noun"
      · subst h3; rfl
      · simp [pruneForms, h1, h2, h3]

lemma pruneStage_ok {wi r : WordInfo} (h : pruneStage wi = Except.ok r) :
    ∃ s, wi.word_type = some s ∧ r = { wi with forms := pruneForms (pyLower s) wi.forms } := by
  cases hw : wi.word_type with
  | none => rw [pruneStage, hw] at h; exact absurd h (by simp)
  | some s =>
    rw [pruneStage, hw] at h
    exact ⟨s, rfl, (by simpa using h.symm)⟩

lemma verbStage_word (word wt0 : String) (wi : WordInfo) :
    (verbStage word wt0 wi).2.word = wi.word := by
  unfold verbStage
  split
  · split <;> rfl
  · split
    · rfl
    · split
      · split
        · rfl
        · split <;> rfl
      · rfl

lemma verbStage_wt (word wt0 : String) (wi : WordInfo) :
    (verbStage word wt0 wi).2.word_type = wi.word_type ∨
    (verbStage word wt0 wi).2.word_type = some "verb" := by
  unfold verbStage
  split
  · split
    · right; rfl
    · left; rfl
  · split
    · left; rfl
    · split
      · split
        · right; rfl
        · split
          · left; rfl
          · left; rfl
      · left; rfl

lemma nounStage_word (word : String) (s : String × WordInfo) :
    (nounStage word s).2.word = s.2.word := by
  unfold nounStage
  split
  · split <;> rfl
  · split
    · split <;> rfl
    · rfl

lemma nounStage_wt (word : String) (s : String × WordInfo) :
    (nounStage word s).2.word_type = s.2.word_type ∨
    (nounStage word s).2.word_type = some "noun" := by
  unfold nounStage
  split
  · split
    · right; rfl
    · right; rfl
  · split
    · split
      · left; rfl
      · left; rfl
    · left; rfl

lemma nounStage_fst_ne (word : String) (s : String × WordInfo) :
    (nounStage word s).1 ≠ "" := by
  unfold nounStage
  split
  · split <;> simp
  · split
    · split
      · simp_all
      · simp_all
    · simp_all

lemma adjStage_word (word : String) (s : String × WordInfo) :
    (adjStage word s).2.word = s.2.word := by
  unfold adjStage
  split
  · rfl
  · split
    · rfl
    · split <;> rfl

lemma adjStage_wt_of_ne (word : String) (s : String × WordInfo) (h : s.1 ≠ "") :
    (adjStage word s).2.word_type = s.2.word_type := by
  unfold adjStage
  split
  · rfl
  · split
    · simp_all
    · split <;> rfl

lemma inferenceGate_word (word wt0 : String) (wi : WordInfo) :
    (inferenceGate word wt0 wi).word = wi.word := by
  unfold inferenceGate
  rw [adjStage_word, nounStage_word, verbStage_word]

lemma inferenceGate_wt (word wt0 : String) (wi : WordInfo) :
    (inferenceGate word wt0 wi).word_type = wi.word_type ∨
    (inferenceGate word wt0 wi).word_type = some "verb" ∨
    (inferenceGate word wt0 wi).word_type = some "noun" := by
  unfold inferenceGate
  rw [adjStage_wt_of_ne word _ (nounStage_fst_ne word _)]
  rcases nounStage_wt word (verbStage word wt0 wi) with h | h
  · rw [h]
    rcases verbStage_wt word wt0 wi with h2 | h2
    · exact Or.inl h2
    · exact Or.inr (Or.inl h2)
  · exact Or.inr (Or.inr h)

lemma processWord_ok {w : String} {f : FetchOutcome} {r : WordInfo}
    (h : processWord w f = Except.ok r) :
    ∃ wi s0, get_word_info w f = some wi ∧ wi.word_type = some s0 ∧
      pruneStage (if pyLower s0 = "" || !(formsAny wi.forms) then inferenceGate w (pyLower s0) wi
                  else wi) = Except.ok r := by
  unfold processWord at h
  cases hg : get_word_info w f with
  | none => simp [hg] at h
  | some wi =>
    simp only [hg] at h
    cases hw : wi.word_type with
    | none => simp [hw] at h
    | some s0 =>
      simp only [hw] at h
      exact ⟨wi, s0, rfl, hw, h⟩

lemma getWiktionaryInfo_wt {word : String} {f : FetchOutcome} {wd : WikiData}
    (h : getWiktionaryInfo word f = some wd) :
    wd.word_type = f.word_type ∨ wd.word_type = some "verb" := by
  unfold getWiktionaryInfo at h
  cases hd : f.defsRaises with
  | true => simp [hd] at h
  | false =>
    simp only [hd, Bool.false_eq_true, if_false] at h
    split at h
    · simp only [Option.some.injEq] at h
      subst h
      cases hirr : lookupIrregular word with
      | none => simp [hirr]
      | some p =>
        cases p with
        | mk pt pp =>
          simp only [hirr]
          by_cases ht : truthyOS f.word_type = true
          · simp [ht]
          · simp [ht]
    · simp at h

lemma get_word_info_props {w : String} {f : FetchOutcome} {wi : WordInfo}
    (h : get_word_info w f = some wi) :
    wi.word = pyLower (pyStrip w) ∧
    (wi.word_type = none ∨ wi.word_type = f.word_type ∨ wi.word_type = some "verb") := by
  unfold get_word_info at h
  by_cases hz : pyLower (pyStrip w) = ""
  · simp [hz] at h
  · simp only [hz, if_neg, if_false, get_woordenboek_info] at h
    cases hW : getWiktionaryInfo (pyLower (pyStrip w)) f with
    | none =>
      simp only [hW, Option.some.injEq] at h
      rw [← h]
      exact ⟨rfl, Or.inl rfl⟩
    | some wd =>
      simp only [hW, Option.some.injEq] at h
      rw [← h]
      refine ⟨rfl, ?_⟩
      rcases getWiktionaryInfo_wt hW with h2 | h2
      · exact Or.inr (Or.inl h2)
      · exact Or.inr (Or.inr h2)

lemma irregular_entry {w : String} {p : String × String} (h : lookupIrregular w = some p) :
    pyLower (pyStrip w) = w ∧ w ≠ "" ∧ p.1 ≠ "" ∧ p.2 ≠ "" := by
  unfold lookupIrregular at h
  cases hf : IRREGULAR_VERBS.find? (fun e => e.1 == w) with
  | none => simp [hf] at h
  | some e =>
    simp only [hf, Option.some.injEq] at h
    have hmem : e ∈ IRREGULAR_VERBS := List.mem_of_find?_eq_some hf
    have hpred := List.find?_some hf
    have hew : e.1 = w := by simpa using hpred
    have hall : ∀ x ∈ IRREGULAR_VERBS,
        pyLower (pyStrip x.1) = x.1 ∧ x.1 ≠ "" ∧ x.2.1 ≠ "" ∧ x.2.2 ≠ "" := by decide
    obtain ⟨h1, h2, h3, h4⟩ := hall e hmem
    rw [hew] at h1 h2
    refine ⟨h1, h2, ?_, ?_⟩
    · rw [← h]; exact h3
    · rw [← h]; exact h4

lemma processList_forall (fetch : String → FetchOutcome) :
    ∀ (ws : List String) (rs : List WordInfo), processList fetch ws = Except.ok rs →
      List.Forall₂ (fun w r => processWord w (fetch w) = Except.ok r) ws rs := by
  intro ws
  induction ws with
  | nil =>
    intro rs h
    simp only [processList] at h
    have hrs : rs = [] := by simpa using h.symm
    rw [hrs]
    exact List.Forall₂.nil
  | cons w ws ih =>
    intro rs h
    unfold processList at h
    cases hpw : processWord w (fetch w) with
    | error e => simp [hpw] at h
    | ok r =>
      simp only [hpw] at h
      cases hpl : processList fetch ws with
      | error e => simp [hpl] at h
      | ok rs0 =>
        simp only [hpl, Except.ok.injEq] at h
        rw [← h]
        exact List.Forall₂.cons hpw (ih rs0 hpl)

lemma string_ne_empty_data {s : String} (h : s ≠ "") : s.data ≠ [] := by
  intro hnil
  apply h
  cases s with
  | mk data =>
    simp only at hnil
    rw [hnil]

/-- Final record of `kopen` when the fetch succeeds but yields nothing. -/
def recKopen : WordInfo :=
  ⟨"kopen", [],
   ⟨some (some "kocht"), some (some "gekocht"), none, some none, some none, some none⟩,
   some "verb"⟩

/-- C1 counterexample: for the table word `lezen`, a collaborator response
that carries a word type of noun survives the exception override (which
only forces the type when unset), and terminal pruning then clears
past_tense, so the final slot is the explicit null, not the table value
`las`.  The claim, which promises the table pair regardless of what the
collaborator returns, is false at this input. -/
theorem c1_counterexample :
    Except.map (fun r => r.forms.past_tense) (processWord "lezen" (fetchTyped (some "noun"))) =
      Except.ok (some none) ∧
    (some none : Option (Option String)) ≠ some (some "las") :=
  ⟨by decide, by decide⟩

/-- C1 amended: for every word of the irregular table, if the collaborator
fetch does not raise and supplies no word type, the final record carries
the table pair in past_tense and past_participle and word type verb,
whatever meanings, inflection slots or HTML candidates the collaborator
delivered. -/
theorem c1_irregular_override :
    ∀ (w pt pp : String) (f : FetchOutcome) (r : WordInfo),
      lookupIrregular w = some (pt, pp) → f.defsRaises = false → truthyOS f.word_type = false →
      processWord w f = Except.ok r →
      r.forms.past_tense = some (some pt) ∧ r.forms.past_participle = some (some pp) ∧
      r.word_type = some "verb" := by
  intro w pt pp f r hirr hdr hwt h
  obtain ⟨hnorm, hwne, hpt, hpp⟩ := irregular_entry hirr
  have hdt_pt : dtruthy (some (some pt)) = true := by
    simp [dtruthy, dget, truthyOS, truthyS, bne_iff_ne]
    exact hpt
  have hdt_pp : dtruthy (some (some pp)) = true := by
    simp [dtruthy, dget, truthyOS, truthyS, bne_iff_ne]
    exact hpp
  have hW : getWiktionaryInfo w f =
      some ⟨f.meanings,
            { inflForms f with past_tense := some (some pt), past_participle := some (some pp) },
            some "verb"⟩ := by
    unfold getWiktionaryInfo
    simp only [hdr, Bool.false_eq_true, if_false, hirr, hwt]
    simp [applyHtmlPast, applyHtmlPart, formsAny, hdt_pt, hdt_pp]
  have hgwi : get_word_info w f =
      some ⟨w, f.meanings,
            { inflForms f with past_tense := some (some pt), past_participle := some (some pp) },
            some "verb"⟩ := by
    unfold get_word_info
    rw [hnorm, if_neg hwne]
    simp only [hW, get_woordenboek_info]
  unfold processWord at h
  simp only [hgwi] at h
  have hfa : formsAny
      { inflForms f with past_tense := some (some pt), past_participle := some (some pp) } = true := by
    simp [formsAny, hdt_pt]
  simp only [hfa] at h
  have hlv : pyLower "verb" = "verb" := by decide
  simp only [hlv] at h
  simp only [show (decide ("verb" = "") || !true) = false from by decide] at h
  simp only [if_false, Bool.false_eq_true] at h
  simp only [pruneStage, pruneForms_verb_eq] at h
  have hr : r = _ := (by simpa using h.symm)
  rw [hr]
  exact ⟨rfl, rfl, rfl⟩

/-- C1 witness: `lezen` with a successful but empty fetch ends with the
table pair and word type verb. -/
theorem c1_irregular_override_witness :
    lookupIrregular "lezen" = some ("las", "gelezen") ∧
    fetchEmpty.defsRaises = false ∧ truthyOS fetchEmpty.word_type = false ∧
    processWord "lezen" fetchEmpty = Except.ok recLezen ∧
    (recLezen.forms.past_tense = some (some "las") ∧
     recLezen.forms.past_participle = some (some "gelezen") ∧
     recLezen.word_type = some "verb") := by
  have h : processWord "lezen" fetchEmpty = Except.ok recLezen := by decide
  exact ⟨by decide, rfl, rfl, h,
         c1_irregular_override "lezen" "las" "gelezen" fetchEmpty recLezen (by decide) rfl rfl h⟩

/-- C2: when the collaborator fetch raises (collaborator unavailable),
`_get_wiktionary_info` returns `None`, the record keeps its `None` word
type, and `word_info.get('word_type', '').lower()` raises
`AttributeError` for every non-blank word, aborting the batch instead of
degrading to an unset-slot record. -/
theorem c2_collaborator_down_crashes :
    ∀ (w : String) (f : FetchOutcome), f.defsRaises = true → pyLower (pyStrip w) ≠ "" →
      processWord w f = Except.error () := by
  intro w f hd hz
  have hW : getWiktionaryInfo (pyLower (pyStrip w)) f = none := by
    unfold getWiktionaryInfo
    simp [hd]
  unfold processWord get_word_info
  rw [if_neg hz]
  simp [hW, get_woordenboek_info]

/-- C2 witness: the concrete word `boek` with the fetch raising. -/
theorem c2_collaborator_down_crashes_witness :
    fetchDown.defsRaises = true ∧ pyLower (pyStrip "boek") ≠ "" ∧
    processWord "boek" fetchDown = Except.error () :=
  ⟨rfl, by decide, c2_collaborator_down_crashes "boek" fetchDown rfl (by decide)⟩

/-- C3: `werken` with a successful fetch that yields no data does not
produce the record the claim describes; the pipeline raises
(`AttributeError` on `word_info.get('word_type', '').lower()`, the key
being present with value `None`) before the verb rule can run. -/
theorem c3_werken_crashes : processWord "werken" fetchEmpty = Except.error () := by decide

/-- C4 counterexample: when the collaborator returns a dict (here one
meaning and word type verb, no forms), `result.update(wiktionary_data)`
replaces the fully keyed forms frame with the partial collaborator dict,
and the final record of `loop` is missing the past_tense, past_participle
and present_tense keys entirely. -/
theorem c4_counterexample :
    Except.map (fun r => allSixPresent r.forms) (processWord "loop" (fetchTyped (some "verb"))) =
      Except.ok false := by decide

/-- C4 amended: the six-slot fixed shape holds for the record produced by
`get_word_info` whenever the collaborator returned no dict; the record
then keeps the initial frame in which every slot is present with an
explicit null. -/
theorem c4_frame_without_collaborator :
    ∀ (w : String) (f : FetchOutcome) (wi : WordInfo),
      get_word_info w f = some wi → getWiktionaryInfo (pyLower (pyStrip w)) f = none →
      wi.forms = frameForms ∧ allSixPresent wi.forms = true := by
  intro w f wi h hn
  unfold get_word_info at h
  by_cases hz : pyLower (pyStrip w) = ""
  · simp [hz] at h
  · simp only [hz, if_neg, if_false, hn, get_woordenboek_info, Option.some.injEq] at h
    rw [← h]
    refine ⟨rfl, ?_⟩
    show allSixPresent frameForms = true
    decide

/-- C4 witness: `boek` with the fetch raising keeps the six-slot frame. -/
theorem c4_frame_without_collaborator_witness :
    get_word_info "boek" fetchDown = some ⟨"boek", [], frameForms, none⟩ ∧
    getWiktionaryInfo (pyLower (pyStrip "boek")) fetchDown = none ∧
    ((⟨"boek", [], frameForms, none⟩ : WordInfo).forms = frameForms ∧
     allSixPresent (⟨"boek", [], frameForms, none⟩ : WordInfo).forms = true) := by
  have h : get_word_info "boek" fetchDown = some ⟨"boek", [], frameForms, none⟩ := by decide
  have hn : getWiktionaryInfo (pyLower (pyStrip "boek")) fetchDown = none := by decide
  exact ⟨h, hn, c4_frame_without_collaborator "boek" fetchDown _ h hn⟩

/-- C5: in every record the pipeline actually produces, the terminal
pruning step leaves the category-inappropriate slots explicitly null:
verbs carry no plural, comparative or superlative; adjectives no
past_tense, past_participle, present_tense or plural; nouns none of the
verb or adjective slots.  The stored word type string is compared after
lower-casing, as the source does. -/
theorem c5_category_pruning :
    ∀ (w : String) (f : FetchOutcome) (r : WordInfo) (s : String),
      processWord w f = Except.ok r → r.word_type = some s →
      ((pyLower s = "verb" →
          r.forms.plural = some none ∧ r.forms.comparative = some none ∧
          r.forms.superlative = some none) ∧
       (pyLower s = "adjective" →
          r.forms.past_tense = some none ∧ r.forms.past_participle = some none ∧
          r.forms.present_tense = some none ∧ r.forms.plural = some none) ∧
       (pyLower s = "noun" →
          r.forms.past_tense = some none ∧ r.forms.past_participle = some none ∧
          r.forms.present_tense = some none ∧ r.forms.comparative = some none ∧
          r.forms.superlative = some none)) := by
  intro w f r s h hrs
  obtain ⟨wi, s0, hg, hw, hp⟩ := processWord_ok h
  obtain ⟨s1, hw1, hr⟩ := pruneStage_ok hp
  have hs1 : s1 = s := by
    rw [hr] at hrs
    simp only at hrs
    rw [hw1] at hrs
    simpa using hrs
  have hforms : r.forms = pruneForms (pyLower s)
      (if pyLower s0 = "" || !(formsAny wi.forms) then inferenceGate w (pyLower s0) wi
       else wi).forms := by
    rw [hr, hs1]
  refine ⟨?_, ?_, ?_⟩ <;> intro hlw <;> rw [hforms, hlw]
  · rw [pruneForms_verb_eq]
    exact ⟨rfl, rfl, rfl⟩
  · rw [pruneForms_adjective_eq]
    exact ⟨rfl, rfl, rfl, rfl⟩
  · rw [pruneForms_noun_eq]
    exact ⟨rfl, rfl, rfl, rfl, rfl⟩

/-- C5 witness: the verb record of `kopen` has its noun and adjective
slots explicitly null. -/
theorem c5_category_pruning_witness :
    processWord "kopen" fetchEmpty = Except.ok recKopen ∧
    (recKopen.forms.plural = some none ∧ recKopen.forms.comparative = some none ∧
     recKopen.forms.superlative = some none) := by
  have h : processWord "kopen" fetchEmpty = Except.ok recKopen := by decide
  exact ⟨h, (c5_category_pruning "kopen" fetchEmpty recKopen "verb" h rfl).1 (by decide)⟩

/-- C6 counterexample: for `aPen`, the stem final character is the capital
P, which the claim places outside {p, t, k, f, s, x, c} and so in the
voiced branch, but the source lower-cases the character before the test
and produces the voiceless forms. -/
theorem c6_counterexample :
    get_verb_forms "aPen" = some ("aPte", "geaPt") ∧
    specVerbRule "aPen" = some ("aPde", "geaPd") ∧
    get_verb_forms "aPen" ≠ specVerbRule "aPen" :=
  ⟨by decide, by decide, by decide⟩

/-- C6 amended: `_get_verb_forms` agrees everywhere with the claimed rule
once the voiceless membership test reads the stem final character after
lower-casing: forms are produced exactly when the word ends in `en` with a
non-empty stem, voiceless stems take `te` and `ge..t`, all others take
`de` and `ge..d`. -/
theorem c6_verb_rule_amended : ∀ w : String, get_verb_forms w = specVerbRuleLowered w := by
  intro w
  unfold get_verb_forms specVerbRuleLowered
  by_cases he : pyEndsWith w "en" = true
  · by_cases hs : pyDropLast2 w = ""
    · have h0 : (pyDropLast2 w).data = [] := by rw [hs]
      simp [he, hs, h0]
    · have h0 : (pyDropLast2 w).data ≠ [] := string_ne_empty_data hs
      have h1 : 0 < (pyDropLast2 w).data.length := List.length_pos.mpr h0
      simp [he, hs, h1]
      intro hlen
      simp only [String.length] at hlen
      omega
  · simp [he]

/-- C7: the terminal category-pruning step is idempotent; running it a
second time on its own output returns that output unchanged. -/
theorem c7_prune_idempotent :
    ∀ wi : WordInfo, Except.bind (pruneStage wi) pruneStage = pruneStage wi := by
  intro wi
  cases hw : wi.word_type with
  | none => simp [pruneStage, hw, Except.bind]
  | some s =>
    simp only [pruneStage, hw, Except.bind]
    simp only [pruneForms_idem]

/-- C8 counterexample: a batch containing `werken` with a collaborator
that yields no data aborts with the word-type crash and returns no record
list at all, instead of one record per non-blank line. -/
theorem c8_counterexample :
    process_words_from_file ["werken", "", "   "] (fun _ => fetchEmpty) = Except.error () := by
  decide

/-- C8 amended: whenever the batch completes, its output pairs the
non-blank trimmed lines, in their original order, one for one with the
produced records; blank or whitespace-only lines are dropped by the
filter and shift nothing.  A word whose processing raises aborts the whole
batch. -/
theorem c8_batch_shape :
    ∀ (lines : List String) (fetch : String → FetchOutcome) (rs : List WordInfo),
      process_words_from_file lines fetch = Except.ok rs →
      List.Forall₂ (fun w r => processWord w (fetch w) = Except.ok r)
        ((lines.map pyStrip).filter (fun w => w ≠ "")) rs := by
  intro lines fetch rs h
  exact processList_forall fetch _ rs h

/-- C8 witness: a blank line and ` boek ` give exactly the one record of
`boek`. -/
theorem c8_batch_shape_witness :
    process_words_from_file ["", " boek "] (fun _ => fetchTyped (some "noun")) =
      Except.ok [recBoek] ∧
    List.Forall₂ (fun w r => processWord w ((fun _ => fetchTyped (some "noun")) w) = Except.ok r)
      ["boek"] [recBoek] := by
  have hfil : ((["", " boek "].map pyStrip).filter (fun w => w ≠ "")) = ["boek"] := by decide
  have h : process_words_from_file ["", " boek "] (fun _ => fetchTyped (some "noun")) =
      Except.ok [recBoek] := by decide
  have h2 := c8_batch_shape ["", " boek "] (fun _ => fetchTyped (some "noun")) [recBoek] h
  rw [hfil] at h2
  exact ⟨h, h2⟩

/-- C9: the inference stage never assigns the adjective type: the noun
stage always claims a still-unset type first, so a final record can carry
an adjective word type only when the collaborator itself supplied exactly
that string. -/
theorem c9_no_adjective_from_inference :
    ∀ (w : String) (f : FetchOutcome) (r : WordInfo) (s : String),
      processWord w f = Except.ok r → r.word_type = some s → pyLower s = "adjective" →
      f.word_type = some s := by
  intro w f r s h hrs hl
  obtain ⟨wi, s0, hg, hw, hp⟩ := processWord_ok h
  obtain ⟨s1, hw1, hr⟩ := pruneStage_ok hp
  have hrt : r.word_type =
      (if pyLower s0 = "" || !(formsAny wi.forms) then inferenceGate w (pyLower s0) wi
       else wi).word_type := by
    rw [hr]
  have hdisj : r.word_type = wi.word_type ∨ r.word_type = some "verb" ∨
      r.word_type = some "noun" := by
    rw [hrt]
    split
    · exact inferenceGate_wt w (pyLower s0) wi
    · exact Or.inl rfl
  have hgw := (get_word_info_props hg).2
  rcases hdisj with h1 | h1 | h1
  · rcases hgw with h2 | h2 | h2
    · rw [h1, h2] at hrs
      exact absurd hrs (by simp)
    · rw [← h2, ← h1, hrs]
    · rw [h1, h2] at hrs
      have hs : s = "verb" := by simpa using hrs.symm
      rw [hs] at hl
      exact absurd hl (by decide)
  · rw [h1] at hrs
    have hs : s = "verb" := by simpa using hrs.symm
    rw [hs] at hl
    exact absurd hl (by decide)
  · rw [h1] at hrs
    have hs : s = "noun" := by simpa using hrs.symm
    rw [hs] at hl
    exact absurd hl (by decide)

/-- C9 witness: `mooi` ends typed adjective exactly because the
collaborator said so. -/
theorem c9_no_adjective_from_inference_witness :
    processWord "mooi" (fetchTyped (some "adjective")) = Except.ok recMooi ∧
    (fetchTyped (some "adjective")).word_type = some "adjective" := by
  have h : processWord "mooi" (fetchTyped (some "adjective")) = Except.ok recMooi := by decide
  exact ⟨h, c9_no_adjective_from_inference "mooi" (fetchTyped (some "adjective")) recMooi
              "adjective" h rfl (by decide)⟩

/-- C10: every produced record stores the trimmed lower-cased line as its
word key, while the inference functions and the irregular-membership test
of the batch loop receive the unlowered word: with identical collaborator
data, `WERKEN` and `werken` produce records with the same word key but
different past_tense slots. -/
theorem c10_word_normalization :
    (∀ (w : String) (f : FetchOutcome) (r : WordInfo),
      processWord w f = Except.ok r → r.word = pyLower (pyStrip w)) ∧
    Except.map (fun r => r.word) (processWord "WERKEN" (fetchTyped (some "verb"))) =
      Except.map (fun r => r.word) (processWord "werken" (fetchTyped (some "verb"))) ∧
    Except.map (fun r => dget r.forms.past_tense) (processWord "WERKEN" (fetchTyped (some "verb"))) ≠
      Except.map (fun r => dget r.forms.past_tense) (processWord "werken" (fetchTyped (some "verb"))) := by
  refine ⟨?_, by decide, by decide⟩
  intro w f r h
  obtain ⟨wi, s0, hg, hw, hp⟩ := processWord_ok h
  obtain ⟨s1, hw1, hr⟩ := pruneStage_ok hp
  have hrw : r.word =
      (if pyLower s0 = "" || !(formsAny wi.forms) then inferenceGate w (pyLower s0) wi
       else wi).word := by
    rw [hr]
  rw [hrw]
  have hgw := (get_word_info_props hg).1
  split
  · rw [inferenceGate_word]
    exact hgw
  · exact hgw

/-- C10 witness: the record of `werken` stores the normalized word key. -/
theorem c10_word_normalization_witness :
    processWord "werken" (fetchTyped (some "verb")) = Except.ok recWerken ∧
    recWerken.word = pyLower (pyStrip "werken") := by
  have h : processWord "werken" (fetchTyped (some "verb")) = Except.ok recWerken := by decide
  exact ⟨h, c10_word_normalization.1 "werken" (fetchTyped (some "verb")) recWerken h⟩
